import Mathlib

/-!
Shallow embedding of `src/CalculatingCalibration.py`: a deterministic
candidate-generation and frequency-scoring routine over seven ordered
numeric positions.  Integer values are modelled as `Int`, counts as `Nat`,
Python `dict`/`Counter` lookups as association lists with an explicit
default, and Python exceptions (IndexError on list indexing, numpy's
ValueError on the argmax/argmin of an empty sequence) as `Option.none`.
-/

namespace CalculatingCalibration

/-- Model of Python `range(a, b)`: the integers `a, a+1, ..., b-1`,
empty when `b ≤ a`. -/
def pyRange (a b : Int) : List Int :=
  (List.range (b - a).toNat).map (fun (i : Nat) => a + (i : Int))

/-- `TARGET_DATE.strftime("%Y-%m-%d")` for `datetime(2026, 2, 3)`. -/
def TARGET_DATE : String := "2026-02-03"

def USE_LLM_REFINEMENT : Bool := false

def DIST_P1_P2 : Int := 5

def DIST_P2_P3 : Int := 2

def DIST_P3_P4 : Int := 11

def DIST_P4_P5 : Int := 10

def SUM_DISTANCES : Int := DIST_P1_P2 + DIST_P2_P3 + DIST_P3_P4 + DIST_P4_P5

/-- A frequency table (`collections.Counter` / `dict`): finitely many
`(value, count)` entries; values not present are simply absent. -/
abbrev Freq : Type := List (Int × Nat)

/-- `t.get(v, d)`: the count stored for `v`, or the default `d` when `v`
is absent.  Total: it never fails. -/
def Freq.get (t : Freq) (v : Int) (d : Nat) : Nat :=
  match t.find? (fun p => p.1 == v) with
  | some p => p.2
  | none => d

/-- `Counter(data)`: one entry per distinct observed value, holding its
number of occurrences.  Unobserved values get no entry at all. -/
def mkCounter (data : List Int) : Freq :=
  data.dedup.map (fun v => (v, data.count v))

/-- `calc_distances`: consecutive differences `positions[i+1] - positions[i]`. -/
def calc_distances (positions : List Int) : List Int :=
  (List.range (positions.length - 1)).map
    (fun i => positions.getD (i + 1) 0 - positions.getD i 0)

/-- `generate_p1_5_candidates`: for `p1` in `range(1, 51 - SUM_DISTANCES)`,
the tuple obtained by adding the four fixed distances in turn. -/
def generate_p1_5_candidates : List (List Int) :=
  (pyRange 1 (51 - SUM_DISTANCES)).map (fun p1 =>
    let p2 := p1 + DIST_P1_P2
    let p3 := p2 + DIST_P2_P3
    let p4 := p3 + DIST_P3_P4
    let p5 := p4 + DIST_P4_P5
    [p1, p2, p3, p4, p5])

/-- `score_p1_5_candidate`: sum over the candidate's positions of
`freqs_by_col[i].get(value, 0)`.  `none` models the IndexError raised when
the candidate is longer than the list of per-column tables. -/
def score_p1_5_candidate : List Int → List Freq → Option Nat
  | [], _ => some 0
  | _ :: _, [] => none
  | v :: vs, f :: fs =>
    (score_p1_5_candidate vs fs).map (fun s => Freq.get f v 0 + s)

/-- `score_p6_7_candidate`: `freqs_by_col[0].get(p6, 0) +
freqs_by_col[1].get(p7, 0) + distance_counts.get(p7 - p6, 0)`.  `none`
models the errors raised when the candidate does not unpack into exactly
two values or fewer than two column tables are supplied. -/
def score_p6_7_candidate (candidate : List Int) (freqs_by_col : List Freq)
    (distance_counts : Freq) : Option Nat :=
  match candidate, freqs_by_col with
  | [p6, p7], f6 :: f7 :: _ =>
    let distance_score := Freq.get distance_counts (p7 - p6) 0
    some (Freq.get f6 p6 0 + Freq.get f7 p7 0 + distance_score)
  | _, _ => none

/-- Model of `int(np.argmax(scores))` with numpy's documented tie-breaking:
the index of the FIRST occurrence of the maximum, paired with that maximum;
`none` on the empty list, where numpy raises
`ValueError: attempt to get argmax of an empty sequence`. -/
def argmaxP : List Nat → Option (Nat × Nat)
  | [] => none
  | x :: xs =>
    match argmaxP xs with
    | none => some (0, x)
    | some (i, v) => if v > x then some (i + 1, v) else some (0, x)

/-- Model of `int(np.argmin(scores))`: index of the first occurrence of the
minimum; `none` on the empty list. -/
def argminP : List Nat → Option (Nat × Nat)
  | [] => none
  | x :: xs =>
    match argminP xs with
    | none => some (0, x)
    | some (i, v) => if v < x then some (i + 1, v) else some (0, x)

/-- `candidates[int(np.argmax(scores))]` as done in `main`. -/
def select_best (candidates : List (List Int)) (scores : List Nat) :
    Option (List Int) :=
  (argmaxP scores).bind (fun p => candidates.get? p.1)

/-- `candidates[int(np.argmin(scores))]` as done in `main`. -/
def select_worst (candidates : List (List Int)) (scores : List Nat) :
    Option (List Int) :=
  (argminP scores).bind (fun p => candidates.get? p.1)

/-- The list comprehension in `main`:
`[[p6, p7] for p6 in range(1, 12) for p7 in range(p6 + 1, 13)]`. -/
def p6_7_candidates : List (List Int) :=
  (pyRange 1 12).flatMap (fun p6 =>
    (pyRange (p6 + 1) 13).map (fun p7 => [p6, p7]))

/-- The `"positions"` sub-dictionary of a report record. -/
structure Positions where
  P1 : Int
  P2 : Int
  P3 : Int
  P4 : Int
  P5 : Int
  P6 : Int
  P7 : Int

/-- The `"distances"` sub-dictionary of a report record. -/
structure Distances where
  P1_P2 : Int
  P2_P3 : Int
  P3_P4 : Int
  P4_P5 : Int
  P6_P7 : Int

/-- One of the `most_likely` / `least_likely` records of the result. -/
structure OutcomeRecord where
  positions : Positions
  distances : Distances

/-- The `result` dictionary assembled at the end of `main`. -/
structure Report where
  target_date : String
  day_of_week : String
  most_likely : OutcomeRecord
  least_likely : OutcomeRecord

/-- The dictionary literal built in `main` for one selected pair of
candidates: seven resolved positions, the four fixed distance constants
verbatim, and the computed `P6_P7` distance. -/
def build_outcome (p1_5 p6_7 : List Int) : OutcomeRecord :=
  { positions :=
      { P1 := p1_5.getD 0 0
        P2 := p1_5.getD 1 0
        P3 := p1_5.getD 2 0
        P4 := p1_5.getD 3 0
        P5 := p1_5.getD 4 0
        P6 := p6_7.getD 0 0
        P7 := p6_7.getD 1 0 }
    distances :=
      { P1_P2 := DIST_P1_P2
        P2_P3 := DIST_P2_P3
        P3_P4 := DIST_P3_P4
        P4_P5 := DIST_P4_P5
        P6_P7 := p6_7.getD 1 0 - p6_7.getD 0 0 } }

/-- The full `result` dictionary of `main`. -/
def assemble_result (most15 least15 most67 least67 : List Int) : Report :=
  { target_date := TARGET_DATE
    day_of_week := "Tuesday"
    most_likely := build_outcome most15 most67
    least_likely := build_outcome least15 least67 }

/-- The final step of `main`: `if USE_LLM_REFINEMENT: result = llm_refine(result)`. -/
def apply_refinement (use_refinement : Bool) (refine : Report → Report)
    (result : Report) : Report :=
  if use_refinement then refine result else result

lemma mem_pyRange {a b v : Int} : v ∈ pyRange a b ↔ a ≤ v ∧ v < b := by
  unfold pyRange
  constructor
  · intro h
    rw [List.mem_map] at h
    obtain ⟨i, hi, rfl⟩ := h
    rw [List.mem_range] at hi
    omega
  · intro h
    rw [List.mem_map]
    refine ⟨(v - a).toNat, ?_, ?_⟩
    · rw [List.mem_range]
      omega
    · omega

lemma generate_eq :
    generate_p1_5_candidates =
      (pyRange 1 23).map (fun p1 => [p1, p1 + 5, p1 + 7, p1 + 18, p1 + 28]) := by
  decide

/-- C1 counterexample: the 5-tuple generator does NOT produce 29 candidates
with the fixed gaps (5,2,11,10) and range [1,50]; `range(1, 51 - 28)` stops
at `p1 = 22`, so there are 22. -/
theorem C1_counterexample : ¬ (generate_p1_5_candidates.length = 29) := by
  decide

/-- C1 (amended): with the fixed gaps (5,2,11,10) and the value range [1,50],
`generate_p1_5_candidates` produces exactly 22 candidates, whose first
components `p1` are exactly 1, 2, ..., 22 in order. -/
theorem C1_count :
    generate_p1_5_candidates.length = 22 ∧
    generate_p1_5_candidates.map (fun c => c.getD 0 0) =
      [1, 2, 3, 4, 5, 6, 7, 8, 9, 10, 11, 12, 13, 14, 15, 16, 17, 18, 19,
       20, 21, 22] := by
  constructor
  · decide
  · decide

/-- C8: in the assembled report, for both the most-likely and least-likely
records, the four gap fields equal the configuration constants 5, 2, 11, 10
verbatim, whatever candidates were selected, and the `P6_P7` gap equals the
selected 2-tuple's second value minus its first value. -/
theorem C8_report_distances (most15 least15 most67 least67 : List Int) :
    (assemble_result most15 least15 most67 least67).most_likely.distances =
      { P1_P2 := 5, P2_P3 := 2, P3_P4 := 11, P4_P5 := 10,
        P6_P7 := most67.getD 1 0 - most67.getD 0 0 } ∧
    (assemble_result most15 least15 most67 least67).least_likely.distances =
      { P1_P2 := 5, P2_P3 := 2, P3_P4 := 11, P4_P5 := 10,
        P6_P7 := least67.getD 1 0 - least67.getD 0 0 } := by
  exact ⟨rfl, rfl⟩

/-- C9: with the refinement hook disabled (the shipped configuration,
`USE_LLM_REFINEMENT = False`), the assembled report passes through
unmodified, whatever refinement function might be installed. -/
theorem C9_no_refinement (llm_refine : Report → Report) (result : Report) :
    apply_refinement USE_LLM_REFINEMENT llm_refine result = result := by
  simp [apply_refinement, USE_LLM_REFINEMENT]

/-- C2: every tuple produced by `generate_p1_5_candidates` is a 5-tuple whose
consecutive differences are the four configured distances with all values in
[1, 50]; every tuple with these properties is produced (and, by `Nodup`,
exactly once); and the output is ordered ascending by its first component. -/
theorem C2_five_tuple_generator :
    (∀ c ∈ generate_p1_5_candidates,
      ∃ v1 v2 v3 v4 v5 : Int, c = [v1, v2, v3, v4, v5] ∧
        v2 = v1 + DIST_P1_P2 ∧ v3 = v2 + DIST_P2_P3 ∧
        v4 = v3 + DIST_P3_P4 ∧ v5 = v4 + DIST_P4_P5 ∧
        (∀ v ∈ c, 1 ≤ v ∧ v ≤ 50)) ∧
    (∀ v1 v2 v3 v4 v5 : Int,
      v2 = v1 + DIST_P1_P2 → v3 = v2 + DIST_P2_P3 →
      v4 = v3 + DIST_P3_P4 → v5 = v4 + DIST_P4_P5 →
      (∀ v ∈ [v1, v2, v3, v4, v5], 1 ≤ v ∧ v ≤ 50) →
      [v1, v2, v3, v4, v5] ∈ generate_p1_5_candidates) ∧
    generate_p1_5_candidates.Nodup ∧
    List.Pairwise (fun c d => c.getD 0 0 < d.getD 0 0) generate_p1_5_candidates := by
  refine ⟨?_, ?_, by decide, by decide⟩
  · intro c hc
    rw [generate_eq] at hc
    simp only [List.mem_map] at hc
    obtain ⟨p1, hp1, rfl⟩ := hc
    rw [mem_pyRange] at hp1
    refine ⟨p1, p1 + 5, p1 + 7, p1 + 18, p1 + 28, rfl, ?_, ?_, ?_, ?_, ?_⟩
    · simp [DIST_P1_P2]
    · simp [DIST_P2_P3]; ring
    · simp [DIST_P3_P4]; ring
    · simp [DIST_P4_P5]; ring
    · intro v hv
      simp only [List.mem_cons, List.not_mem_nil, or_false] at hv
      rcases hv with rfl | rfl | rfl | rfl | rfl <;> omega
  · intro v1 v2 v3 v4 v5 h2 h3 h4 h5 hb
    simp only [DIST_P1_P2, DIST_P2_P3, DIST_P3_P4, DIST_P4_P5] at h2 h3 h4 h5
    have hb1 := hb v1 (by simp)
    have hb5 := hb v5 (by simp)
    rw [generate_eq]
    simp only [List.mem_map]
    refine ⟨v1, mem_pyRange.mpr ⟨by omega, by omega⟩, ?_⟩
    simp only [List.cons.injEq, and_true, true_and, eq_self_iff_true]
    omega

/-- C2 witness: the tuple beginning at 3 is generated. -/
theorem C2_witness : [(3 : Int), 8, 10, 21, 31] ∈ generate_p1_5_candidates :=
  C2_five_tuple_generator.2.1 3 8 10 21 31 (by decide) (by decide) (by decide)
    (by decide) (by decide)

/-- C3: the 2-tuple generator produces exactly the pairs `[a, b]` with
`1 ≤ a < b ≤ 12`, each exactly once (`Nodup`), ordered ascending by `a`
then by `b`, and there are 66 = 12·11/2 of them. -/
theorem C3_pair_generator :
    (∀ c ∈ p6_7_candidates, ∃ a b : Int, c = [a, b] ∧ 1 ≤ a ∧ a < b ∧ b ≤ 12) ∧
    (∀ a b : Int, 1 ≤ a → a < b → b ≤ 12 → [a, b] ∈ p6_7_candidates) ∧
    p6_7_candidates.Nodup ∧
    List.Pairwise (fun c d => c.getD 0 0 < d.getD 0 0 ∨
      (c.getD 0 0 = d.getD 0 0 ∧ c.getD 1 0 < d.getD 1 0)) p6_7_candidates ∧
    p6_7_candidates.length = 66 ∧ 66 = 12 * 11 / 2 := by
  refine ⟨?_, ?_, by decide, by decide, by decide, by decide⟩
  · intro c hc
    unfold p6_7_candidates at hc
    simp only [List.mem_flatMap, List.mem_map] at hc
    obtain ⟨p6, hp6, p7, hp7, rfl⟩ := hc
    rw [mem_pyRange] at hp6 hp7
    exact ⟨p6, p7, rfl, by omega, by omega, by omega⟩
  · intro a b h1 h2 h3
    unfold p6_7_candidates
    simp only [List.mem_flatMap, List.mem_map]
    exact ⟨a, mem_pyRange.mpr ⟨h1, by omega⟩, b,
      mem_pyRange.mpr ⟨by omega, by omega⟩, rfl⟩

/-- C3 witness: the pair (3, 9) is generated. -/
theorem C3_witness : [(3 : Int), 9] ∈ p6_7_candidates :=
  C3_pair_generator.2.1 3 9 (by decide) (by decide) (by decide)

lemma get_absent (t : Freq) (v : Int) (h : v ∉ t.map Prod.fst) :
    Freq.get t v 0 = 0 := by
  unfold Freq.get
  have hnone : t.find? (fun p => p.1 == v) = none := by
    rw [List.find?_eq_none]
    intro p hp hbeq
    exact h (List.mem_map.mpr ⟨p, hp, by simpa using hbeq⟩)
  rw [hnone]

lemma argmaxP_ne_none (x : Nat) (xs : List Nat) : argmaxP (x :: xs) ≠ none := by
  simp only [argmaxP]
  cases argmaxP xs with
  | none => simp
  | some p =>
    obtain ⟨i, v⟩ := p
    dsimp only
    split <;> simp

lemma argminP_ne_none (x : Nat) (xs : List Nat) : argminP (x :: xs) ≠ none := by
  simp only [argminP]
  cases argminP xs with
  | none => simp
  | some p =>
    obtain ⟨i, v⟩ := p
    dsimp only
    split <;> simp

lemma argmaxP_spec :
    ∀ (l : List Nat) (i v : Nat), argmaxP l = some (i, v) →
      l.get? i = some v ∧ (∀ j w, l.get? j = some w → w ≤ v) ∧
      (∀ j, j < i → ∀ w, l.get? j = some w → w < v) := by
  intro l
  induction l with
  | nil => intro i v h; simp [argmaxP] at h
  | cons x xs ih =>
    intro i v h
    cases hxs : argmaxP xs with
    | none =>
      have hnil : xs = [] := by
        cases xs with
        | nil => rfl
        | cons y ys => exact absurd hxs (argmaxP_ne_none y ys)
      subst hnil
      simp only [argmaxP, Option.some.injEq, Prod.mk.injEq] at h
      obtain ⟨rfl, rfl⟩ := h
      refine ⟨rfl, ?_, ?_⟩
      · intro j w hj
        cases j with
        | zero => simp at hj; omega
        | succ n => simp at hj
      · intro j hj w hw
        omega
    | some p =>
      obtain ⟨i', v'⟩ := p
      obtain ⟨hget, hall, hfirst⟩ := ih i' v' hxs
      by_cases hgt : v' > x
      · simp only [argmaxP, hxs, if_pos hgt, Option.some.injEq, Prod.mk.injEq] at h
        obtain ⟨rfl, rfl⟩ := h
        refine ⟨by simpa using hget, ?_, ?_⟩
        · intro j w hj
          cases j with
          | zero => simp at hj; omega
          | succ n => exact hall n w (by simpa using hj)
        · intro j hj w hw
          cases j with
          | zero => simp at hw; omega
          | succ n => exact hfirst n (by omega) w (by simpa using hw)
      · simp only [argmaxP, hxs, if_neg hgt, Option.some.injEq, Prod.mk.injEq] at h
        obtain ⟨rfl, rfl⟩ := h
        push_neg at hgt
        refine ⟨rfl, ?_, ?_⟩
        · intro j w hj
          cases j with
          | zero => simp at hj; omega
          | succ n => have := hall n w (by simpa using hj); omega
        · intro j hj w hw
          omega

lemma argminP_spec :
    ∀ (l : List Nat) (i v : Nat), argminP l = some (i, v) →
      l.get? i = some v ∧ (∀ j w, l.get? j = some w → v ≤ w) ∧
      (∀ j, j < i → ∀ w, l.get? j = some w → v < w) := by
  intro l
  induction l with
  | nil => intro i v h; simp [argminP] at h
  | cons x xs ih =>
    intro i v h
    cases hxs : argminP xs with
    | none =>
      have hnil : xs = [] := by
        cases xs with
        | nil => rfl
        | cons y ys => exact absurd hxs (argminP_ne_none y ys)
      subst hnil
      simp only [argminP, Option.some.injEq, Prod.mk.injEq] at h
      obtain ⟨rfl, rfl⟩ := h
      refine ⟨rfl, ?_, ?_⟩
      · intro j w hj
        cases j with
        | zero => simp at hj; omega
        | succ n => simp at hj
      · intro j hj w hw
        omega
    | some p =>
      obtain ⟨i', v'⟩ := p
      obtain ⟨hget, hall, hfirst⟩ := ih i' v' hxs
      by_cases hlt : v' < x
      · simp only [argminP, hxs, if_pos hlt, Option.some.injEq, Prod.mk.injEq] at h
        obtain ⟨rfl, rfl⟩ := h
        refine ⟨by simpa using hget, ?_, ?_⟩
        · intro j w hj
          cases j with
          | zero => simp at hj; omega
          | succ n => exact hall n w (by simpa using hj)
        · intro j hj w hw
          cases j with
          | zero => simp at hw; omega
          | succ n => exact hfirst n (by omega) w (by simpa using hw)
      · simp only [argminP, hxs, if_neg hlt, Option.some.injEq, Prod.mk.injEq] at h
        obtain ⟨rfl, rfl⟩ := h
        push_neg at hlt
        refine ⟨rfl, ?_, ?_⟩
        · intro j w hj
          cases j with
          | zero => simp at hj; omega
          | succ n => have := hall n w (by simpa using hj); omega
        · intro j hj w hw
          omega

lemma argmaxP_const (k : Nat) :
    ∀ l : List Nat, (∀ y ∈ l, y = k) → l ≠ [] → argmaxP l = some (0, k) := by
  intro l
  induction l with
  | nil => intro _ h; exact absurd rfl h
  | cons x xs ih =>
    intro hall _
    have hx : x = k := hall x (List.mem_cons_self x xs)
    subst hx
    cases xs with
    | nil => simp [argmaxP]
    | cons y ys =>
      have hys : argmaxP (y :: ys) = some (0, x) :=
        ih (fun z hz => hall z (List.mem_cons_of_mem x hz)) (by simp)
      rw [argmaxP, hys]
      simp

lemma argminP_const (k : Nat) :
    ∀ l : List Nat, (∀ y ∈ l, y = k) → l ≠ [] → argminP l = some (0, k) := by
  intro l
  induction l with
  | nil => intro _ h; exact absurd rfl h
  | cons x xs ih =>
    intro hall _
    have hx : x = k := hall x (List.mem_cons_self x xs)
    subst hx
    cases xs with
    | nil => simp [argminP]
    | cons y ys =>
      have hys : argminP (y :: ys) = some (0, x) :=
        ih (fun z hz => hall z (List.mem_cons_of_mem x hz)) (by simp)
      rw [argminP, hys]
      simp

/-- C4: the selection step returns the score list's entry at the returned
argmax (resp. argmin) index; that entry is the maximum (resp. minimum), and
every strictly earlier entry is strictly worse, so the first occurrence wins
on ties for both extrema; in particular for scores [3, 7, 7, 2] the maximum
is taken at index 1 (not 2) and the candidate at index 1 is selected. -/
theorem C4_extremum_selector :
    (∀ (scores : List Nat) (i v : Nat), argmaxP scores = some (i, v) →
      scores.get? i = some v ∧ (∀ j w, scores.get? j = some w → w ≤ v) ∧
      (∀ j, j < i → ∀ w, scores.get? j = some w → w < v)) ∧
    (∀ (scores : List Nat) (i v : Nat), argminP scores = some (i, v) →
      scores.get? i = some v ∧ (∀ j w, scores.get? j = some w → v ≤ w) ∧
      (∀ j, j < i → ∀ w, scores.get? j = some w → v < w)) ∧
    argmaxP [3, 7, 7, 2] = some (1, 7) ∧
    select_best [[9, 9], [1, 6], [2, 5], [3, 4]] [3, 7, 7, 2] = some [1, 6] := by
  exact ⟨argmaxP_spec, argminP_spec, by decide, by decide⟩

/-- C4 witness: at scores [3, 7, 7, 2] the argmax characterisation applies
and yields the entry at index 1. -/
theorem C4_witness : ([3, 7, 7, 2] : List Nat).get? 1 = some 7 :=
  (C4_extremum_selector.1 [3, 7, 7, 2] 1 7 (by decide)).1

/-- C5: on an empty candidate list the selection step fails (the modelled
`np.argmax`/`np.argmin` calls reject an empty sequence) rather than
returning any candidate, and this failure happens exactly on the empty
list: on any non-empty score list both selectors succeed. -/
theorem C5_empty_selection :
    select_best ([] : List (List Int)) ([] : List Nat) = none ∧
    select_worst ([] : List (List Int)) ([] : List Nat) = none ∧
    argmaxP ([] : List Nat) = none ∧ argminP ([] : List Nat) = none ∧
    (∀ scores : List Nat, scores ≠ [] →
      (argmaxP scores).isSome = true ∧ (argminP scores).isSome = true) := by
  refine ⟨rfl, rfl, rfl, rfl, ?_⟩
  intro scores h
  cases scores with
  | nil => exact absurd rfl h
  | cons x xs =>
    exact ⟨Option.isSome_iff_ne_none.mpr (argmaxP_ne_none x xs),
      Option.isSome_iff_ne_none.mpr (argminP_ne_none x xs)⟩

/-- C5 witness: a singleton score list is non-empty and both selectors
succeed on it. -/
theorem C5_witness :
    (argmaxP [5]).isSome = true ∧ (argminP [5]).isSome = true :=
  ⟨(C5_empty_selection.2.2.2.2 [5] (by decide)).1,
   (C5_empty_selection.2.2.2.2 [5] (by decide)).2⟩

/-- C6: the score of a 2-tuple candidate `[a, b]` is the slot-6 frequency of
`a` plus the slot-7 frequency of `b` plus the gap-distribution frequency of
`b - a`, with any absent lookup contributing 0. -/
theorem C6_pair_score :
    (∀ (a b : Int) (f6 f7 : Freq) (rest : List Freq) (dist : Freq),
      score_p6_7_candidate [a, b] (f6 :: f7 :: rest) dist =
        some (Freq.get f6 a 0 + Freq.get f7 b 0 + Freq.get dist (b - a) 0)) ∧
    (∀ (t : Freq) (v : Int), v ∉ t.map Prod.fst → Freq.get t v 0 = 0) :=
  ⟨fun _ _ _ _ _ _ => rfl, fun t v h => get_absent t v h⟩

/-- C6 witness: a concrete pair score is the sum 2 + 5 + 7 of the three
lookups, and a lookup absent from its table contributes 0. -/
theorem C6_witness :
    score_p6_7_candidate [3, 8] [[(3, 2)], [(8, 5)]] [(5, 7)] = some 14 ∧
    Freq.get [(1, 4)] 9 0 = 0 :=
  ⟨(C6_pair_score.1 3 8 [(3, 2)] [(8, 5)] [] [(5, 7)]).trans (by decide),
   C6_pair_score.2 [(1, 4)] 9 (by decide)⟩

/-- C7: a frequency table built from observed data maps any unobserved value
to 0 under the defaulting lookup (which is total, hence never raises), and
scoring is total whenever a table is supplied for each position, returning a
(non-negative, `Nat`-valued) score. -/
theorem C7_lookup_total :
    (∀ (data : List Int) (v : Int), v ∉ data →
      Freq.get (mkCounter data) v 0 = 0) ∧
    (∀ (candidate : List Int) (freqs : List Freq),
      candidate.length ≤ freqs.length →
      (score_p1_5_candidate candidate freqs).isSome = true) ∧
    (∀ (a b : Int) (f6 f7 : Freq) (rest : List Freq) (dist : Freq),
      (score_p6_7_candidate [a, b] (f6 :: f7 :: rest) dist).isSome = true) := by
  refine ⟨?_, ?_, fun _ _ _ _ _ _ => rfl⟩
  · intro data v hv
    apply get_absent
    intro hmem
    rw [List.mem_map] at hmem
    obtain ⟨p, hp, hfst⟩ := hmem
    unfold mkCounter at hp
    rw [List.mem_map] at hp
    obtain ⟨w, hw, rfl⟩ := hp
    simp only at hfst
    subst hfst
    exact hv (List.mem_dedup.mp hw)
  · intro candidate
    induction candidate with
    | nil => intro freqs _; rfl
    | cons v vs ih =>
      intro freqs h
      cases freqs with
      | nil => simp at h
      | cons f fs =>
        have hvs := ih fs (by simpa using h)
        simp only [score_p1_5_candidate]
        cases hres : score_p1_5_candidate vs fs with
        | none => rw [hres] at hvs; simp at hvs
        | some s => rfl

/-- C7 witness: looking up an unobserved value in a table built from data
returns 0, and scoring a candidate with one table per position succeeds. -/
theorem C7_witness :
    Freq.get (mkCounter [1, 2]) 5 0 = 0 ∧
    (score_p1_5_candidate [1, 2] [[], []]).isSome = true ∧
    (score_p6_7_candidate [1, 2] [[], []] []).isSome = true :=
  ⟨C7_lookup_total.1 [1, 2] 5 (by decide),
   C7_lookup_total.2.1 [1, 2] [[], []] (by decide),
   C7_lookup_total.2.2 1 2 [] [] [] []⟩

/-- C10: whenever the score lists are constant (as with empty frequency
tables, where every score is 0), the most-likely and least-likely selections
coincide and are the first candidate in generation order: [1, 6, 8, 19, 29]
for the 5-tuple sub-problem and [1, 2] for the 2-tuple sub-problem; the two
closing conjuncts evaluate exactly the empty-table case. -/
theorem C10_uniform_scores :
    (∀ (scores : List Nat) (k : Nat),
      scores.length = generate_p1_5_candidates.length →
      (∀ s ∈ scores, s = k) →
      select_best generate_p1_5_candidates scores = some [1, 6, 8, 19, 29] ∧
      select_worst generate_p1_5_candidates scores = some [1, 6, 8, 19, 29]) ∧
    (∀ (scores : List Nat) (k : Nat),
      scores.length = p6_7_candidates.length →
      (∀ s ∈ scores, s = k) →
      select_best p6_7_candidates scores = some [1, 2] ∧
      select_worst p6_7_candidates scores = some [1, 2]) ∧
    select_best generate_p1_5_candidates
      (generate_p1_5_candidates.map
        (fun c => (score_p1_5_candidate c [[], [], [], [], []]).getD 0)) =
      some [1, 6, 8, 19, 29] ∧
    select_worst p6_7_candidates
      (p6_7_candidates.map
        (fun c => (score_p6_7_candidate c [[], []] []).getD 0)) =
      some [1, 2] := by
  refine ⟨?_, ?_, by decide, by decide⟩
  · intro scores k hlen hall
    cases scores with
    | nil => exact absurd hlen (by decide)
    | cons x xs =>
      have hmax := argmaxP_const k (x :: xs) hall (by simp)
      have hmin := argminP_const k (x :: xs) hall (by simp)
      constructor
      · unfold select_best
        rw [hmax]
        show generate_p1_5_candidates.get? 0 = some [1, 6, 8, 19, 29]
        decide
      · unfold select_worst
        rw [hmin]
        show generate_p1_5_candidates.get? 0 = some [1, 6, 8, 19, 29]
        decide
  · intro scores k hlen hall
    cases scores with
    | nil => exact absurd hlen (by decide)
    | cons x xs =>
      have hmax := argmaxP_const k (x :: xs) hall (by simp)
      have hmin := argminP_const k (x :: xs) hall (by simp)
      constructor
      · unfold select_best
        rw [hmax]
        show p6_7_candidates.get? 0 = some [1, 2]
        decide
      · unfold select_worst
        rw [hmin]
        show p6_7_candidates.get? 0 = some [1, 2]
        decide

/-- C10 witness: with 22 equal scores the 5-tuple selections both return the
first generated candidate. -/
theorem C10_witness :
    select_best generate_p1_5_candidates (List.replicate 22 0) =
      some [1, 6, 8, 19, 29] ∧
    select_worst generate_p1_5_candidates (List.replicate 22 0) =
      some [1, 6, 8, 19, 29] :=
  C10_uniform_scores.1 (List.replicate 22 0) 0 (by decide) (by decide)

end CalculatingCalibration
